import Mathlib

/-!
Verification of the smart-home occupancy / gesture core.

Shallow embedding of the Python sources:
  - `src/hardware/bedroom_automation.py` (occupancy state machine, event
    window, sequence detectors, RC-LDR brightness reading, exit timer,
    ultrasonic range read),
  - `src/hardware/room_lights.py` (button gesture classifier and light
    actuator operations),
  - `src/tests/sensor_tuning.py` (calibration statistics and threshold
    recommendation).

Python floats are modelled as rationals (`ℚ`), Python `None` as `Option`,
and Python exceptions as an `Except`-style result type.
-/

namespace SmartHome

/-- Python exceptions that the embedded code fragments can raise. -/
inductive PyErr
  | nameError (missing : String)
  | keyError (key : String)
deriving DecidableEq, Repr

/-- Result of running an embedded Python fragment: a value or an exception. -/
abbrev PyResult (α : Type) := Except PyErr α

/-- `RoomState` enum of bedroom_automation.py (EMPTY = 0, OCCUPIED = 1,
EXITING = 2). -/
inductive RoomState
  | EMPTY
  | OCCUPIED
  | EXITING
deriving DecidableEq, Repr

/-- One per-tick sensor snapshot: the `event` dict appended to
`last_sensor_events` in `_check_occupancy` (time, trigger booleans of the
two ultrasonic sensors, raw distances).  US2 is the doorway-side (outer)
sensor, US1 the room-side (inner) sensor. -/
structure SensorEvent where
  time : ℚ
  us2 : Bool
  us1 : Bool
  us2_distance : ℚ
  us1_distance : ℚ
deriving DecidableEq, Repr

/-- Default sensor event used as the out-of-range default of `List.getD`. -/
def dummyEvent : SensorEvent := ⟨0, false, false, 0, 0⟩

/-- Window duration literal used in `_check_occupancy`:
`current_time - e.time < 1.5`. -/
def WINDOW_DURATION : ℚ := 3/2

/-- The window update of `_check_occupancy`: append the fresh event, then
keep only events with `current_time - e.time < 1.5`, where `current_time`
is the fresh event's own timestamp. -/
def record_event (events : List SensorEvent) (e : SensorEvent) : List SensorEvent :=
  (events ++ [e]).filter (fun s => decide (e.time - s.time < WINDOW_DURATION))

/-- `_detect_entrance_sequence`: scan adjacent pairs of the event window;
a match is `events[i].us2 ∧ events[i+1].us1` with a gap strictly below
1.0 s. -/
def detect_entrance_sequence : List SensorEvent → Bool
  | e1 :: e2 :: rest =>
      (e1.us2 && e2.us1 && decide (e2.time - e1.time < 1))
        || detect_entrance_sequence (e2 :: rest)
  | _ => false

/-- `_detect_exit_sequence`: the mirror scan, `events[i].us1 ∧
events[i+1].us2` with a gap strictly below 1.0 s. -/
def detect_exit_sequence : List SensorEvent → Bool
  | e1 :: e2 :: rest =>
      (e1.us1 && e2.us2 && decide (e2.time - e1.time < 1))
        || detect_exit_sequence (e2 :: rest)
  | _ => false

/-- Declarative reading of an entrance match: some adjacent index pair
`(i, i+1)` has the outer (US2) sensor triggered at `i`, the inner (US1)
sensor triggered at `i+1`, and a timestamp gap strictly below 1 s. -/
def entrance_pair_at (events : List SensorEvent) (i : ℕ) : Prop :=
  i + 1 < events.length ∧
  (events.getD i dummyEvent).us2 = true ∧
  (events.getD (i+1) dummyEvent).us1 = true ∧
  (events.getD (i+1) dummyEvent).time - (events.getD i dummyEvent).time < 1

/-- Declarative reading of an exit match: as `entrance_pair_at` with the
sensor roles swapped. -/
def exit_pair_at (events : List SensorEvent) (i : ℕ) : Prop :=
  i + 1 < events.length ∧
  (events.getD i dummyEvent).us1 = true ∧
  (events.getD (i+1) dummyEvent).us2 = true ∧
  (events.getD (i+1) dummyEvent).time - (events.getD i dummyEvent).time < 1

lemma detect_entrance_cons (e1 e2 : SensorEvent) (rest : List SensorEvent) :
    detect_entrance_sequence (e1 :: e2 :: rest) =
      ((e1.us2 && e2.us1 && decide (e2.time - e1.time < 1))
        || detect_entrance_sequence (e2 :: rest)) := rfl

lemma detect_exit_cons (e1 e2 : SensorEvent) (rest : List SensorEvent) :
    detect_exit_sequence (e1 :: e2 :: rest) =
      ((e1.us1 && e2.us2 && decide (e2.time - e1.time < 1))
        || detect_exit_sequence (e2 :: rest)) := rfl

lemma detect_entrance_iff (events : List SensorEvent) :
    detect_entrance_sequence events = true ↔ ∃ i, entrance_pair_at events i := by
  induction events with
  | nil => simp [detect_entrance_sequence, entrance_pair_at]
  | cons e1 tl ih =>
      cases tl with
      | nil => simp [detect_entrance_sequence, entrance_pair_at]
      | cons e2 rest =>
          rw [detect_entrance_cons]
          simp only [Bool.or_eq_true, Bool.and_eq_true, decide_eq_true_eq]
          constructor
          · rintro (⟨⟨hu2, hu1⟩, ht⟩ | h2)
            · exact ⟨0, by simp [entrance_pair_at, List.length], by simpa using hu2,
                by simpa using hu1, by simpa using ht⟩
            · rcases ih.mp h2 with ⟨i, hlen, hu2, hu1, ht⟩
              refine ⟨i + 1, ?_, ?_, ?_, ?_⟩
              · simpa [List.length] using Nat.succ_lt_succ hlen
              · simpa [List.getD_cons_succ] using hu2
              · simpa [List.getD_cons_succ] using hu1
              · simpa [List.getD_cons_succ] using ht
          · rintro ⟨i, hlen, hu2, hu1, ht⟩
            cases i with
            | zero =>
                left
                simp only [List.getD_cons_zero, List.getD_cons_succ] at hu2 hu1 ht
                exact ⟨⟨hu2, hu1⟩, ht⟩
            | succ i =>
                right
                apply ih.mpr
                refine ⟨i, ?_, ?_, ?_, ?_⟩
                · simpa [List.length] using Nat.lt_of_succ_lt_succ hlen
                · simpa [List.getD_cons_succ] using hu2
                · simpa [List.getD_cons_succ] using hu1
                · simpa [List.getD_cons_succ] using ht

lemma detect_exit_iff (events : List SensorEvent) :
    detect_exit_sequence events = true ↔ ∃ i, exit_pair_at events i := by
  induction events with
  | nil => simp [detect_exit_sequence, exit_pair_at]
  | cons e1 tl ih =>
      cases tl with
      | nil => simp [detect_exit_sequence, exit_pair_at]
      | cons e2 rest =>
          rw [detect_exit_cons]
          simp only [Bool.or_eq_true, Bool.and_eq_true, decide_eq_true_eq]
          constructor
          · rintro (⟨⟨hu1, hu2⟩, ht⟩ | h2)
            · exact ⟨0, by simp [exit_pair_at, List.length], by simpa using hu1,
                by simpa using hu2, by simpa using ht⟩
            · rcases ih.mp h2 with ⟨i, hlen, hu1, hu2, ht⟩
              refine ⟨i + 1, ?_, ?_, ?_, ?_⟩
              · simpa [List.length] using Nat.succ_lt_succ hlen
              · simpa [List.getD_cons_succ] using hu1
              · simpa [List.getD_cons_succ] using hu2
              · simpa [List.getD_cons_succ] using ht
          · rintro ⟨i, hlen, hu1, hu2, ht⟩
            cases i with
            | zero =>
                left
                simp only [List.getD_cons_zero, List.getD_cons_succ] at hu1 hu2 ht
                exact ⟨⟨hu1, hu2⟩, ht⟩
            | succ i =>
                right
                apply ih.mpr
                refine ⟨i, ?_, ?_, ?_, ?_⟩
                · simpa [List.length] using Nat.lt_of_succ_lt_succ hlen
                · simpa [List.getD_cons_succ] using hu1
                · simpa [List.getD_cons_succ] using hu2
                · simpa [List.getD_cons_succ] using ht

/-- C7: `detect` is true iff some adjacent pair of the window, in time
order, has the order's first sensor triggered then its second sensor
triggered within strictly less than 1.0 s; the sample pair outer at t=0
then inner at t=0.5 matches the entrance order, and the same pair with a
1.5 s gap does not. -/
theorem c7_sequence_detector_iff :
    (∀ events : List SensorEvent,
        detect_entrance_sequence events = true ↔ ∃ i, entrance_pair_at events i) ∧
    (∀ events : List SensorEvent,
        detect_exit_sequence events = true ↔ ∃ i, exit_pair_at events i) ∧
    detect_entrance_sequence
      [⟨0, true, false, 30, 0⟩, ⟨1/2, false, true, 0, 30⟩] = true ∧
    detect_entrance_sequence
      [⟨0, true, false, 30, 0⟩, ⟨3/2, false, true, 0, 30⟩] = false := by
  refine ⟨detect_entrance_iff, detect_exit_iff, ?_, ?_⟩ <;>
    norm_num [detect_entrance_sequence]

/-- Witness for C7: the concrete entrance example through the theorem. -/
theorem c7_sequence_detector_iff_witness :
    detect_entrance_sequence
      [⟨0, true, false, 30, 0⟩, ⟨1/2, false, true, 0, 30⟩] = true :=
  c7_sequence_detector_iff.2.2.1

/-- C8: after `record_event` inserts a sample with timestamp `t`, every
retained sample `s` satisfies `t - s.time < WINDOW_DURATION`. -/
theorem c8_window_prune_invariant
    (events : List SensorEvent) (e s : SensorEvent)
    (hs : s ∈ record_event events e) :
    e.time - s.time < WINDOW_DURATION := by
  have h := (List.mem_filter.mp hs).2
  exact of_decide_eq_true h

/-- Witness: the freshly inserted sample itself is retained and satisfies
the window bound. -/
theorem c8_window_prune_invariant_witness :
    dummyEvent.time - dummyEvent.time < WINDOW_DURATION :=
  c8_window_prune_invariant [] dummyEvent dummyEvent
    (by norm_num [record_event, WINDOW_DURATION, dummyEvent])

/-! ### Brightness reading (RC LDR) and the Empty-state handler -/

/-- Names bound at module level of bedroom_automation.py: line 12 binds
`time`, line 13 `Thread` and `Lock`, line 14 `Enum`, lines 15 and 16 `sys`
and `os`, line 23 the config values, line 49 `GPIO` (when available).  The
`statistics` module is never among them. -/
def bedroom_automation_imports : List String :=
  ["time", "Thread", "Lock", "Enum", "sys", "os",
   "BEDROOM_SENSORS", "LIGHT_THRESHOLD", "US1_DISTANCE_THRESHOLD",
   "US2_DISTANCE_THRESHOLD", "US1_NORMAL_DISTANCE", "US2_NORMAL_DISTANCE",
   "EXIT_DELAY", "GPIO"]

lemma statistics_not_imported : "statistics" ∉ bedroom_automation_imports := by
  decide

/-- `statistics.median`: sort ascending; odd count takes the middle
element, even count the mean of the two middle elements. -/
def pymedian (xs : List ℚ) : ℚ :=
  let s := xs.insertionSort (· ≤ ·)
  let n := s.length
  if n % 2 = 1 then s.getD (n / 2) 0
  else (s.getD (n / 2 - 1) 0 + s.getD (n / 2) 0) / 2

/-- `measure_ldr_median`: collect the raw samples that did not time out
(`samples` holds each `measure_ldr_charge_time` outcome, `none` =
timeout/error); with no usable sample return `None`; otherwise the source
evaluates `statistics.median(vals)`, whose name lookup fails because
`statistics` is not bound in the module, raising `NameError`. -/
def measure_ldr_median (samples : List (Option ℚ)) : PyResult (Option ℚ) :=
  if samples.filterMap id = [] then .ok none
  else if "statistics" ∈ bedroom_automation_imports then
    .ok (some (pymedian (samples.filterMap id)))
  else .error (.nameError "statistics")

/-- `is_room_dark`: median `None` (all samples timed out) fails safe to
`(True, None)`; otherwise dark iff the median charge time exceeds the
threshold.  An exception from the median computation propagates. -/
def is_room_dark (samples : List (Option ℚ)) (threshold_seconds : ℚ) :
    PyResult (Bool × Option ℚ) :=
  match measure_ldr_median samples with
  | .error e => .error e
  | .ok none => .ok (true, none)
  | .ok (some med) => .ok (decide (med > threshold_seconds), some med)

/-- A call into the lighting actuator,
`set_light(channel, state, source)`. -/
inductive LightCmd
  | setLight (channel : String) (turn_on : Bool)
deriving DecidableEq, Repr

/-- `_handle_empty_state`, run by the tick while state is EMPTY: on an
entrance-sequence match, classify brightness, command the bedroom light on
when dark, and set state OCCUPIED; the result is the state after the
handler plus the actuator commands it issued, or the exception that
aborted the tick (leaving the state untouched and issuing no command). -/
def handle_empty_state (events : List SensorEvent)
    (samples : List (Option ℚ)) (threshold : ℚ) :
    PyResult (RoomState × List LightCmd) :=
  if detect_entrance_sequence events then
    match is_room_dark samples threshold with
    | .error e => .error e
    | .ok (is_dark, _) =>
        if is_dark then .ok (RoomState.OCCUPIED, [LightCmd.setLight "bedroom" true])
        else .ok (RoomState.OCCUPIED, [])
  else .ok (RoomState.EMPTY, [])

lemma measure_ldr_median_of_sample (samples : List (Option ℚ))
    (h : samples.filterMap id ≠ []) :
    measure_ldr_median samples = .error (.nameError "statistics") := by
  unfold measure_ldr_median
  rw [if_neg h, if_neg statistics_not_imported]

/-- C2: with at least one usable raw LDR sample, `measure_ldr_median`
raises `NameError` (the `statistics` module is never imported);
`is_room_dark` returns normally exactly when every sample failed; and a
usable sample during an entrance transition aborts the Empty-state tick
with that exception. -/
theorem c2_missing_statistics_raises :
    "statistics" ∉ bedroom_automation_imports ∧
    (∀ samples : List (Option ℚ), samples.filterMap id ≠ [] →
      measure_ldr_median samples = .error (.nameError "statistics")) ∧
    (∀ (samples : List (Option ℚ)) (threshold : ℚ),
      (∃ r, is_room_dark samples threshold = .ok r) ↔ samples.filterMap id = []) ∧
    (∀ (events : List SensorEvent) (samples : List (Option ℚ)) (threshold : ℚ),
      detect_entrance_sequence events = true → samples.filterMap id ≠ [] →
      handle_empty_state events samples threshold = .error (.nameError "statistics")) := by
  refine ⟨statistics_not_imported, measure_ldr_median_of_sample, ?_, ?_⟩
  · intro samples θ
    constructor
    · rintro ⟨r, hr⟩
      by_contra hne
      rw [is_room_dark, measure_ldr_median_of_sample samples hne] at hr
      cases hr
    · intro h
      refine ⟨(true, none), ?_⟩
      simp [is_room_dark, measure_ldr_median, h]
  · intro events samples θ hdet hne
    simp [handle_empty_state, hdet, is_room_dark,
      measure_ldr_median_of_sample samples hne]

/-- Witness for C2 at one concrete successful sample of 0.04 s. -/
theorem c2_missing_statistics_raises_witness :
    measure_ldr_median [some (1/25)] = .error (.nameError "statistics") :=
  c2_missing_statistics_raises.2.1 [some (1/25)] (by simp)

/-- C1 (code bug): with the window holding an entrance match (outer
triggered at t=0, inner at t=0.5) and one successful LDR sample of 0.6 s
against threshold 0.12 s, the handler raises `NameError` instead of
classifying brightness and moving to OCCUPIED; only the all-samples-fail
path reaches OCCUPIED (treated as dark, light commanded on). -/
theorem c1_entrance_transition_aborted :
    detect_entrance_sequence
      [⟨0, true, false, 32, 0⟩, ⟨1/2, false, true, 0, 31⟩] = true ∧
    handle_empty_state
      [⟨0, true, false, 32, 0⟩, ⟨1/2, false, true, 0, 31⟩]
      [some (3/5)] (3/25) = .error (.nameError "statistics") ∧
    handle_empty_state
      [⟨0, true, false, 32, 0⟩, ⟨1/2, false, true, 0, 31⟩]
      [none, none, none, none, none, none, none] (3/25)
      = .ok (RoomState.OCCUPIED, [LightCmd.setLight "bedroom" true]) := by
  have hdet : detect_entrance_sequence
      [⟨0, true, false, 32, 0⟩, ⟨1/2, false, true, 0, 31⟩] = true := by
    norm_num [detect_entrance_sequence]
  refine ⟨hdet, ?_, ?_⟩
  · have hm : measure_ldr_median [some (3/5)] = .error (.nameError "statistics") :=
      measure_ldr_median_of_sample _ (by simp)
    simp only [handle_empty_state, hdet]
    simp only [is_room_dark, hm]
    simp
  · have hm : measure_ldr_median [none, none, none, none, none, none, none]
        = .ok none := by
      simp [measure_ldr_median]
    simp only [handle_empty_state, hdet]
    simp only [is_room_dark, hm]
    simp

/-! ### Exit-delay timer -/

/-- The `self.exit_timer` field holds a `Thread` object or `None`; the
only observable of the object consulted by the code is `is_alive()`. -/
structure TimerHandle where
  alive : Bool
deriving DecidableEq, Repr

/-- `EXIT_DELAY` from config/settings.py. -/
def EXIT_DELAY : ℕ := 10

/-- What one iteration of the countdown loop observes after its one-second
sleep: the `self.running` flag and the shared `self.state`. -/
structure CountdownObs where
  running : Bool
  state : RoomState
deriving DecidableEq, Repr

/-- The final block of `_exit_delay_countdown`: under the lock, re-check
the state; only if it is still EXITING command the bedroom light off and
set the state to EMPTY.  Result: the state written (`none` = no write)
and the actuator commands issued. -/
def exit_timer_fire (state : RoomState) : Option RoomState × List LightCmd :=
  if state = RoomState.EXITING then
    (some RoomState.EMPTY, [LightCmd.setLight "bedroom" false])
  else (none, [])

/-- `_exit_delay_countdown`: sleep EXIT_DELAY times; after each sleep an
unlocked check returns early (no action) if the loop was stopped or the
state left EXITING; then the locked `exit_timer_fire` block runs.  `obs`
is what the per-second checks observe, `finalState` what the locked
re-check observes, `exit_timer` the `self.exit_timer` field.  The function
body never reassigns `self.exit_timer`; the returned handle has
`alive := false` only because the countdown thread itself terminates on
return. -/
def exit_delay_countdown (obs : List CountdownObs) (finalState : RoomState)
    (exit_timer : Option TimerHandle) :
    Option RoomState × List LightCmd × Option TimerHandle :=
  let t := exit_timer.map (fun h => { h with alive := false })
  if obs.all (fun o => o.running && decide (o.state = RoomState.EXITING)) then
    ((exit_timer_fire finalState).1, (exit_timer_fire finalState).2, t)
  else (none, [], t)

/-- `_cancel_exit_timer`: drops the handle (sets the field to `None`);
called only from the Exiting-state handler on inner-sensor retrigger. -/
def cancel_exit_timer (_ : Option TimerHandle) : Option TimerHandle := none

/-- C3 counterexample: an uninterrupted countdown (all ten checks see
running=true and EXITING, final locked check sees EXITING) ends with state
EMPTY and one light-off command, but the `exit_timer` field still holds
the (now dead) handle — it is not cleared to `None`, so a handle exists
while the state is EMPTY. -/
theorem c3_exit_timer_field_not_cleared :
    exit_delay_countdown (List.replicate 10 ⟨true, RoomState.EXITING⟩)
        RoomState.EXITING (some ⟨true⟩)
      = (some RoomState.EMPTY, [LightCmd.setLight "bedroom" false], some ⟨false⟩) ∧
    (some (⟨false⟩ : TimerHandle) ≠ (none : Option TimerHandle)) := by
  decide

/-- C3 amended: every uninterrupted countdown run (no retrigger for the
whole exit delay) ends in EMPTY with exactly one light-off command; the
countdown thread terminates, so the retained handle is no longer alive,
but the `exit_timer` field keeps the dead handle instead of being cleared
to `None`. -/
theorem c3_exit_countdown_amended (obs : List CountdownObs) (tmr : TimerHandle)
    (_hlen : obs.length = EXIT_DELAY)
    (hall : ∀ o ∈ obs, o.running = true ∧ o.state = RoomState.EXITING) :
    exit_delay_countdown obs RoomState.EXITING (some tmr)
      = (some RoomState.EMPTY, [LightCmd.setLight "bedroom" false],
         some { tmr with alive := false }) := by
  have hA : obs.all (fun o => o.running && decide (o.state = RoomState.EXITING)) = true := by
    rw [List.all_eq_true]
    intro o ho
    rcases hall o ho with ⟨hr, hs⟩
    simp [hr, hs]
  simp [exit_delay_countdown, hA, exit_timer_fire]

/-- Witness for C3's amended theorem on a concrete ten-second run. -/
theorem c3_exit_countdown_amended_witness :
    exit_delay_countdown (List.replicate 10 ⟨true, RoomState.EXITING⟩)
        RoomState.EXITING (some ⟨true⟩)
      = (some RoomState.EMPTY, [LightCmd.setLight "bedroom" false], some ⟨false⟩) :=
  c3_exit_countdown_amended (List.replicate 10 ⟨true, RoomState.EXITING⟩) ⟨true⟩
    (by decide) (by decide)

/-- C4: the timer's locked final block acts only when the re-checked state
is still EXITING (light off, state EMPTY); in any other state it issues no
command and writes no state — the firing is a no-op. -/
theorem c4_timer_fire_guard (s : RoomState) :
    (s = RoomState.EXITING →
      exit_timer_fire s = (some RoomState.EMPTY, [LightCmd.setLight "bedroom" false])) ∧
    (s ≠ RoomState.EXITING → exit_timer_fire s = (none, [])) := by
  constructor
  · intro h
    simp [exit_timer_fire, h]
  · intro h
    simp [exit_timer_fire, h]

/-- Witness for C4 in both branches (still EXITING; moved to OCCUPIED). -/
theorem c4_timer_fire_guard_witness :
    exit_timer_fire RoomState.EXITING
      = (some RoomState.EMPTY, [LightCmd.setLight "bedroom" false]) ∧
    exit_timer_fire RoomState.OCCUPIED = (none, []) :=
  ⟨(c4_timer_fire_guard RoomState.EXITING).1 rfl,
   (c4_timer_fire_guard RoomState.OCCUPIED).2 (by decide)⟩

/-! ### Room lights actuator (room_lights.py) -/

/-- Python dict read `d[k]` would fail when the key is absent; this is the
total lookup. -/
def dict_lookup (d : List (String × Bool)) (k : String) : Option Bool :=
  (d.find? (fun p => p.1 == k)).map (fun p => p.2)

/-- Python `d.get(k, dflt)`. -/
def dict_get (d : List (String × Bool)) (k : String) (dflt : Bool) : Bool :=
  match dict_lookup d k with
  | some v => v
  | none => dflt

/-- Python dict assignment `d[k] = v`: overwrite or insert. -/
def dict_set (d : List (String × Bool)) (k : String) (v : Bool) :
    List (String × Bool) :=
  if (d.find? (fun p => p.1 == k)).isSome then
    d.map (fun p => if p.1 == k then (p.1, v) else p)
  else d ++ [(k, v)]

/-- State of `RoomLightsController`: the LED objects (with their output
level) and the cached `led_states` dict. -/
structure LightsState where
  leds : List (String × Bool)
  led_states : List (String × Bool)
deriving DecidableEq, Repr

/-- The controller after `setup_lights` with the LED_PINS rooms of
config/settings.py, every light off. -/
def room_lights_init : LightsState :=
  { leds := [("hall", false), ("bedroom", false), ("kitchen", false), ("bathroom", false)],
    led_states := [("hall", false), ("bedroom", false), ("kitchen", false), ("bathroom", false)] }

/-- `set_light(room, state)`: index `self.leds[room]` (raising `KeyError`
when the room is unknown), drive the LED, record the state, and return
`state`. -/
def set_light (st : LightsState) (room : String) (state : Bool) :
    PyResult (LightsState × Bool) :=
  match dict_lookup st.leds room with
  | none => .error (.keyError room)
  | some _ =>
      .ok ({ leds := dict_set st.leds room state,
             led_states := dict_set st.led_states room state }, state)

/-- `toggle_light(room)`: read the cached state with a defaulting `get`,
negate it, then index `self.leds[room]` (raising `KeyError` when the room
is unknown) and record the new state.  The Python function returns
`None`. -/
def toggle_light (st : LightsState) (room : String) : PyResult LightsState :=
  let current_state := dict_get st.led_states room false
  let new_state := !current_state
  match dict_lookup st.leds room with
  | none => .error (.keyError room)
  | some _ =>
      .ok { leds := dict_set st.leds room new_state,
            led_states := dict_set st.led_states room new_state }

/-- `get_light_state(room)`: defaulting read of the cached dict. -/
def get_light_state (st : LightsState) (room : String) : Bool :=
  dict_get st.led_states room false

/-- C6 counterexample: an unconfigured channel makes both operations raise
`KeyError` — the exception escapes instead of a false/None return. -/
theorem c6_invalid_channel_raises :
    set_light room_lights_init "garage" true = .error (.keyError "garage") ∧
    toggle_light room_lights_init "garage" = .error (.keyError "garage") :=
  ⟨rfl, rfl⟩

/-- C6 amended: for every channel id with no configured LED, `set_light`
and `toggle_light` raise `KeyError` when indexing `self.leds`; they do not
report the invalid channel through a false/None return value. -/
theorem c6_invalid_channel_amended (st : LightsState) (room : String) (state : Bool)
    (h : dict_lookup st.leds room = none) :
    set_light st room state = .error (.keyError room) ∧
    toggle_light st room = .error (.keyError room) := by
  constructor
  · simp [set_light, h]
  · simp [toggle_light, h]

/-- Witness for C6's amended theorem on another unconfigured channel. -/
theorem c6_invalid_channel_amended_witness :
    set_light room_lights_init "garden" false = .error (.keyError "garden") ∧
    toggle_light room_lights_init "garden" = .error (.keyError "garden") :=
  c6_invalid_channel_amended room_lights_init "garden" false (by decide)

/-! ### Button gesture classification (room_lights.py) -/

/-- `double_click_time` default of `RoomLightsController.__init__`
(0.4 s), the value used by app.py. -/
def DOUBLE_CLICK_TIME : ℚ := 2/5

/-- Observable light actions of the gesture classifier. -/
inductive GestureAction
  | singleToggle (room : String)
  | doubleAllOn (room : String)
  | holdAllOff (room : String)
deriving DecidableEq, Repr

/-- A raw hardware edge delivered to the classifier. -/
inductive ButtonEdge
  | press (room : String) (t : ℚ)
  | held (room : String) (t : ℚ)
deriving DecidableEq, Repr

/-- Timestamp of an edge. -/
def edge_time : ButtonEdge → ℚ
  | .press _ t => t
  | .held _ t => t

/-- Threading model of `_pending_single_timers`: each pending `Timer`
carries its room and its firing deadline (start time + double_click_time).
Before an edge at time `now` is handled, every timer whose deadline has
passed has already fired its single-press action (`_single_press_action`:
remove the entry, toggle the room). -/
def fire_due_timers (pending : List (String × ℚ)) (now : ℚ) :
    List (String × ℚ) × List GestureAction :=
  (pending.filter (fun p => decide (now < p.2)),
   (pending.filter (fun p => decide (p.2 ≤ now))).map
     (fun p => GestureAction.singleToggle p.1))

/-- `_on_button_press`: a still-alive pending timer for this room means a
second press inside the window — cancel it and run `_handle_double_press`
(which cancels every pending timer and turns all lights on); otherwise
start a new single-press timer with deadline `t + double_click_time`. -/
def on_button_press (pending : List (String × ℚ)) (room : String) (t : ℚ) :
    List (String × ℚ) × List GestureAction :=
  if (pending.find? (fun p => p.1 == room)).isSome then
    ([], [GestureAction.doubleAllOn room])
  else
    (pending ++ [(room, t + DOUBLE_CLICK_TIME)], [])

/-- `_on_button_hold`: cancel every pending single-press timer and turn
all lights off. -/
def on_button_hold (_pending : List (String × ℚ)) (room : String) :
    List (String × ℚ) × List GestureAction :=
  ([], [GestureAction.holdAllOff room])

/-- Process one edge: first let due timers fire, then dispatch to the
press/hold handler; accumulate the emitted actions. -/
def gesture_step (acc : List (String × ℚ) × List GestureAction) (e : ButtonEdge) :
    List (String × ℚ) × List GestureAction :=
  let fired := fire_due_timers acc.1 (edge_time e)
  match e with
  | .press room t =>
      let r := on_button_press fired.1 room t
      (r.1, acc.2 ++ fired.2 ++ r.2)
  | .held room _ =>
      let r := on_button_hold fired.1 room
      (r.1, acc.2 ++ fired.2 ++ r.2)

/-- Run the classifier from idle over a time-ordered list of edges,
returning the pending timers and all actions fired so far. -/
def gesture_run (edges : List ButtonEdge) :
    List (String × ℚ) × List GestureAction :=
  edges.foldl gesture_step ([], [])

/-- C9: two presses on the same channel with the second inside the
double-click window leave no pending timer and fire exactly one
double-press all-on action — no single-press action for either press
(none fired, and none can fire later since no timer remains). -/
theorem c9_double_press_classification (room : String) (t0 t1 : ℚ)
    (_h0 : t0 ≤ t1) (h1 : t1 - t0 < DOUBLE_CLICK_TIME) :
    gesture_run [ButtonEdge.press room t0, ButtonEdge.press room t1]
      = ([], [GestureAction.doubleAllOn room]) := by
  have hlt : t1 < t0 + DOUBLE_CLICK_TIME := by linarith
  have hnle : ¬ (t0 + DOUBLE_CLICK_TIME ≤ t1) := not_le.mpr hlt
  simp [gesture_run, gesture_step, fire_due_timers, on_button_press, edge_time,
    hlt, hnle]

/-- Witness for C9: presses at t=0 and t=0.25 on the hall button. -/
theorem c9_double_press_classification_witness :
    gesture_run [ButtonEdge.press "hall" 0, ButtonEdge.press "hall" (1/4)]
      = ([], [GestureAction.doubleAllOn "hall"]) :=
  c9_double_press_classification "hall" 0 (1/4) (by norm_num)
    (by norm_num [DOUBLE_CLICK_TIME])

/-! ### Ultrasonic range read (bedroom_automation.py) -/

/-- Echo-wait timeout of `read_ultrasonic_distance` (both waits use
`time.time() + 0.1`). -/
def ECHO_TIMEOUT : ℚ := 1/10

/-- `read_ultrasonic_distance` on real hardware: after the trigger pulse,
wait for the echo line to go HIGH (`riseDelay` = how long that takes) and
then to go LOW again (`highFor` = how long it stays HIGH), each wait
bounded by `ECHO_TIMEOUT`; a wait exceeding its bound returns the 500
sentinel (the docstring's timeout sentinel, the spec's NoEcho), otherwise
the elapsed HIGH time converts to centimeters as
`elapsed * 34300 / 2`.  (The exception handler also returns 500.)  No
plausibility bound is applied to the computed distance. -/
def read_ultrasonic_distance (riseDelay : ℚ) (highFor : ℚ) : ℚ :=
  if riseDelay > ECHO_TIMEOUT then 500
  else if highFor > ECHO_TIMEOUT then 500
  else highFor * 34300 / 2

/-- C10 counterexample: a 9/343 s echo pulse converts to 450 cm, which is
outside the sane range (>400) yet is returned as a distance reading, not
as the no-echo sentinel; likewise a 1/10000 s pulse yields 1.715 cm
(<2). -/
theorem c10_implausible_distance_returned :
    read_ultrasonic_distance (1/100) (9/343) = 450 ∧
    (400 : ℚ) < 450 ∧
    read_ultrasonic_distance (1/100) (9/343) ≠ 500 ∧
    read_ultrasonic_distance (1/100) (1/10000) = 343/200 ∧
    (343/200 : ℚ) < 2 := by
  norm_num [read_ultrasonic_distance, ECHO_TIMEOUT]

/-- C10 amended: a range read whose echo wait exceeds its timeout returns
the 500 no-echo sentinel (it never blocks past the bound), but the
measured distance is returned unfiltered — implausible values (<2 or
>400 cm) are not converted to the sentinel by this function. -/
theorem c10_range_read_amended (riseDelay highFor : ℚ) :
    (riseDelay > ECHO_TIMEOUT → read_ultrasonic_distance riseDelay highFor = 500) ∧
    (highFor > ECHO_TIMEOUT → read_ultrasonic_distance riseDelay highFor = 500) ∧
    (riseDelay ≤ ECHO_TIMEOUT → highFor ≤ ECHO_TIMEOUT →
      read_ultrasonic_distance riseDelay highFor = highFor * 34300 / 2) := by
  refine ⟨?_, ?_, ?_⟩
  · intro h
    simp [read_ultrasonic_distance, h]
  · intro h
    simp [read_ultrasonic_distance, h]
  · intro h1 h2
    unfold read_ultrasonic_distance
    rw [if_neg (not_lt.mpr h1), if_neg (not_lt.mpr h2)]

/-- Witness for C10's amended theorem: a rise wait of 0.2 s times out to
the sentinel; a valid 9/343 s pulse converts to a distance. -/
theorem c10_range_read_amended_witness :
    read_ultrasonic_distance (1/5) 0 = 500 ∧
    read_ultrasonic_distance (1/100) (9/343) = 9/343 * 34300 / 2 :=
  ⟨(c10_range_read_amended (1/5) 0).1 (by norm_num [ECHO_TIMEOUT]),
   (c10_range_read_amended (1/100) (9/343)).2.2
     (by norm_num [ECHO_TIMEOUT]) (by norm_num [ECHO_TIMEOUT])⟩

/-! ### Calibration statistics (sensor_tuning.py) -/

/-- The interpolating percentile of `stats_from_list`:
`k = (n-1)*(p/100)`, `f = int(k)`, `c = min(f+1, n-1)`; the exact rank
when `f = c`, otherwise the linear interpolation
`sorted[f]*(c-k) + sorted[c]*(k-f)`.  Expects the sorted cleaned list;
`None` only when it is empty. -/
def percentile (clean_sorted : List ℚ) (p : ℚ) : Option ℚ :=
  if clean_sorted = [] then none
  else
    let n := clean_sorted.length
    let k : ℚ := ((n : ℚ) - 1) * (p / 100)
    let f : ℕ := (Int.floor k).toNat
    let c : ℕ := min (f + 1) (n - 1)
    if f = c then some (clean_sorted.getD f 0)
    else some (clean_sorted.getD f 0 * ((c : ℚ) - k)
               + clean_sorted.getD c 0 * (k - (f : ℚ)))

/-- `statistics.mean`. -/
def pymean (xs : List ℚ) : ℚ := xs.sum / xs.length

/-- The square of `statistics.stdev`: the sample variance
`Σ (x - mean)² / (n - 1)` (callers guard `n > 1`). -/
def sample_variance (xs : List ℚ) : ℚ :=
  ((xs.map (fun x => (x - pymean xs)^2)).sum) / ((xs.length : ℚ) - 1)

/-- The fields of the `stats_from_list` record consulted by
`recommend_threshold` for the LDR: count, median, 10th/90th percentile,
and the spread.  The source stores `stdev = statistics.stdev(clean)`
(0.0 when `count ≤ 1`); since that square root is irrational in general,
`variance` keeps its square.  The unconsulted min/max/mean/p25/p75 fields
are omitted. -/
structure LdrStats where
  count : ℕ
  median : ℚ
  p10 : ℚ
  p90 : ℚ
  variance : ℚ
deriving DecidableEq, Repr

/-- `stats_from_list`: drop the `None` samples, fail on an empty rest,
else compute the statistics over the cleaned list. -/
def stats_from_list (values : List (Option ℚ)) : Option LdrStats :=
  let clean := values.filterMap id
  if clean = [] then none
  else
    let s := clean.insertionSort (· ≤ ·)
    some { count := clean.length,
           median := pymedian clean,
           p10 := (percentile s 10).getD 0,
           p90 := (percentile s 90).getD 0,
           variance := if 1 < clean.length then sample_variance clean else 0 }

/-- Python `round(q, 4)` on an exact rational: round to the nearest
multiple of 1/10000, ties to even. -/
def pyround4 (q : ℚ) : ℚ :=
  let scaled := q * 10000
  let f := Int.floor scaled
  let r := scaled - (f : ℚ)
  let i : ℤ :=
    if r < 1/2 then f
    else if 1/2 < r then f + 1
    else if f % 2 = 0 then f else f + 1
  (i : ℚ) / 10000

/-- Outcome of the LDR branch of `recommend_threshold`.  The overlap
branch of the source computes `o_p90 + max(0.01, stdev)` (with `stdev`
falling back to 0.01 when it is 0.0) and rounds to 4 decimals; `stdev` is
the irrational √variance, so the payload keeps the rational data (p90 and
variance of the occupied set) that determine that threshold. -/
inductive LdrRecommendation
  | midpoint (thresh : ℚ)
  | overlapMargin (p90 variance : ℚ)
deriving DecidableEq, Repr

/-- The `kind == 'ldr'` branch of `recommend_threshold`: with both stats
present, the code picks the midpoint of the two medians when
`o_p90 > b_p10` (its comment calls this "no overlap"), else the
margin-above-p90 threshold.  (The `is not None` guards on the percentiles
are always satisfied once both stats exist.) -/
def recommend_threshold_ldr (baseline_vals occupied_vals : List (Option ℚ)) :
    Option LdrRecommendation :=
  match stats_from_list baseline_vals, stats_from_list occupied_vals with
  | some b, some o =>
      if o.p90 > b.p10 then
        some (.midpoint (pyround4 ((b.median + o.median) / 2)))
      else
        some (.overlapMargin o.p90 o.variance)
  | _, _ => none

/-- The non-overlap test as the spec words it for the brightness sensor:
the bright set's 90th percentile lies strictly below the dark set's 10th
percentile. -/
def spec_ldr_no_overlap (b o : LdrStats) : Prop := b.p90 < o.p10

/-- C5 (code bug): bright samples [1,2,3] and dark samples [2,3,4] overlap
under the spec's criterion (bright p90 = 2.8 is not below dark
p10 = 2.2), yet the code recommends the midpoint of the medians (2.5)
because its branch condition tests `o_p90 > b_p10` (3.8 > 1.2) instead of
the non-overlap its own comment describes. -/
theorem c5_ldr_overlap_condition_bug :
    recommend_threshold_ldr [some 1, some 2, some 3] [some 2, some 3, some 4]
      = some (.midpoint (5/2)) ∧
    stats_from_list [some 1, some 2, some 3]
      = some { count := 3, median := 2, p10 := 6/5, p90 := 14/5, variance := 1 } ∧
    stats_from_list [some 2, some 3, some 4]
      = some { count := 3, median := 3, p10 := 11/5, p90 := 19/5, variance := 1 } ∧
    ¬ spec_ldr_no_overlap
        { count := 3, median := 2, p10 := 6/5, p90 := 14/5, variance := 1 }
        { count := 3, median := 3, p10 := 11/5, p90 := 19/5, variance := 1 } := by
  have hclean1 : List.filterMap id [some (1:ℚ), some 2, some 3] = [1, 2, 3] := by
    simp [List.filterMap_cons]
  have hclean2 : List.filterMap id [some (2:ℚ), some 3, some 4] = [2, 3, 4] := by
    simp [List.filterMap_cons]
  have hb : stats_from_list [some 1, some 2, some 3]
      = some { count := 3, median := 2, p10 := 6/5, p90 := 14/5, variance := 1 } := by
    simp only [stats_from_list, hclean1]
    norm_num [pymedian, percentile, sample_variance, pymean,
      List.insertionSort, List.orderedInsert, List.cons_ne_nil]
  have ho : stats_from_list [some 2, some 3, some 4]
      = some { count := 3, median := 3, p10 := 11/5, p90 := 19/5, variance := 1 } := by
    simp only [stats_from_list, hclean2]
    norm_num [pymedian, percentile, sample_variance, pymean,
      List.insertionSort, List.orderedInsert, List.cons_ne_nil]
  refine ⟨?_, hb, ho, ?_⟩
  · simp only [recommend_threshold_ldr, hb, ho]
    norm_num [pyround4]
  · norm_num [spec_ldr_no_overlap]

end SmartHome
